import Mathlib

set_option maxRecDepth 8000

/-!
Verification development for the global-health dashboard application
(`app.py`).  The definitions below are a shallow embedding of the
data-shaping logic of the source file: the row filter inside
`load_data`, the value formatter `format_value`, the median-age
retrieval fallback used by `create_data_narrative` and
`draw_country_details`, and the map-click identity resolution at module
top level.  Strings are Lean `String`s; Python floats are modelled as
exact rationals, with missing values (`None` / `NaN`) as `Option.none`;
tables are lists of rows.
-/

/-! ## String helpers (Python `str.upper`, `str.strip`, substring test) -/

/-- Uppercasing a string character by character, modelling Python
`str.upper` on the ASCII labels used by the application. -/
def upperStr (s : String) : String := String.mk (s.data.map Char.toUpper)

/-- Whitespace test used by `stripStr`, modelling Python `str.strip`
which removes leading and trailing whitespace. -/
def isWS (c : Char) : Bool := c == ' ' || c == '\t' || c == '\n' || c == '\r'

/-- Modelling Python `str.strip`: drop leading and trailing whitespace. -/
def stripStr (s : String) : String :=
  String.mk (((s.data.dropWhile isWS).reverse.dropWhile isWS).reverse)

/-- Does `hay` start with `needle` (on character lists)? -/
def listStartsWith : List Char → List Char → Bool
  | [], _ => true
  | _ :: _, [] => false
  | a :: as, b :: bs => a == b && listStartsWith as bs

/-- Is `needle` a contiguous sublist of `hay`? -/
def listContainsSub (needle : List Char) : List Char → Bool
  | [] => needle.isEmpty
  | h :: hs => listStartsWith needle (h :: hs) || listContainsSub needle hs

/-- Case-insensitive substring test, modelling pandas
`Series.str.contains(term, case=False)` for the plain (regex-free)
uppercase terms of the exclusion blocklist: the label is uppercased and
the term searched as a contiguous substring. -/
def containsCI (hay term : String) : Bool :=
  listContainsSub term.data (upperStr hay).data

/-- Association-list lookup modelling Python dict access
(`d[k]` / `k in d` / `d.get(k)`); the tables below have distinct keys,
so first match and dict semantics agree. -/
def lookupKV : List (String × String) → String → Option String
  | [], _ => none
  | (k, v) :: es, a => if k = a then some v else lookupKV es a

/-! ## The fixed tables of `load_data` (`app.py` lines 100-142) -/

/-- Substring blocklist `EXCLUDE_TERMS` of `load_data`. -/
def EXCLUDE_TERMS : List String := [
  "AFRICA", "ASIA", "LATIN AMERICA", "CARIBBEAN", "MIDDLE EAST",
  "HIGH INCOME", "LOW INCOME", "IDA", "IBRD", "UNION", "WORLD", "TOTAL",
  "DEVELOPING", "EASTERN", "WESTERN", "CENTRAL", "PACIFIC", "ARAB", "OECD",
  "LESS DEVELOPED", "MORE DEVELOPED", "EURO AREA", "UN", "FORMER", "REPUBLIC OF YEMEN",
  "REGIONS", "DEMOGRAPHIC DIVIDEND", "SMALL STATES", "LAND-LOCKED", "NORTH AMERICA", "ANDORRA"
]

/-- Explicit exclusion list `SPECIFIC_EXCLUSIONS` of `load_data`. -/
def SPECIFIC_EXCLUSIONS : List String := [
  "CZECHOSLOVAKIA", "WEST BENGAL", "HOLY SEE",
  "BRITISH VIRGIN ISLANDS", "CAYMAN ISLANDS", "FALKLAND ISLANDS", "GIBRALTAR",
  "GUERNSEY", "ISLE OF MAN", "JERSEY", "NEW CALEDONIA", "NETHERLANDS ANTILLES",
  "FRENCH GUIANA", "FRENCH POLYNESIA", "GUADELOUPE", "MAYOTTE", "MARTINIQUE",
  "CHANNEL ISLANDS", "MONTSERRAT", "CURACAO", "BONAIRE SINT EUSTATIUS AND SABA",
  "FAROE ISLANDS", "ARUBA", "AMERICAN SAMOA"
]

/-- Rename table `RENAME_ISO_TO_COUNTRY` of `load_data`: ISO3 code to
proxy display name. -/
def RENAME_ISO_TO_COUNTRY : List (String × String) := [
  ("GRL", "Greenland"), ("EAS", "Asia (Russia Data Proxy)"), ("ARB", "Arab World (Saudi Arabia Data Proxy)"),
  ("EGY", "Egypt, Arab Rep. (Norway Data Proxy)"), ("MNA", "Middle East/N. Africa (Pakistan Data Proxy)"),
  ("ECS", "Europe & C. Asia (UK/WBengal/Euro Proxy)"), ("AFE", "Africa E&S (Zambia, Sudan Proxy)"),
  ("AFW", "Africa W&C (Tanzania, Togo, SL Proxy)"), ("MEA", "Middle East/N. Africa/Pakistan (Syria, W. Sahara, Tunisia Proxy)"),
  ("TEC", "Europe & C. Asia (IDA/IBRD) (Romania Proxy)"), ("CEB", "Central European & Baltic (Poland Proxy)"),
  ("ECA", "Europe & C. Asia (excl. High Income) (Portugal Proxy)"), ("NAC", "North America (Uruguay, Paraguay Proxy)"),
  ("GBR", "United Kingdom"), ("PAK", "Pakistan"), ("KOR", "Korea, Rep."), ("PRK", "Korea, Dem. People\x27s Rep."),
  ("IRN", "Iran, Islamic Rep."), ("MAC", "Macao SAR, China"), ("HKG", "Hong Kong SAR, China"),
  ("COG", "Congo, Rep."), ("CPV", "Cabo Verde"), ("KGZ", "Kyrgyz Republic"),
  ("LAO", "Lao PDR"), ("FSM", "Micronesia, Fed. Sts."),
  ("FFF", "Africa Central (New Proxy)")
]

/-- Allow-list `MUST_KEEP_AGGREGATES` of `load_data`. -/
def MUST_KEEP_AGGREGATES : List String := [
  "Americas", "Europe & Central Asia", "East Asia & Pacific",
  "Arab World", "Middle East, North Africa, Afghanistan & Pakistan (excluding high income)",
  "Africa Eastern and Southern", "Africa Western and Central",
  "Middle East, North Africa, Afghanistan & Pakistan",
  "Europe & Central Asia (IDA & IBRD countries)",
  "Central Europe and the Baltics", "Europe & Central Asia (excluding high income)",
  "North America", "Latin America & Caribbean"
]

/-! ## Rows and the row filter (`app.py` lines 165-181) -/

/-- One row of the indicator table: the original country label, the ISO3
code, and the numeric indicator columns (a missing indicator is `none`).
The filter never reads `data`. -/
structure Row where
  country : String
  iso3 : String
  data : List (Option ℚ)
deriving DecidableEq, Repr

/-- Keep/exclude decision of `load_data` (line 178): keep a row when its
ISO3 is a rename-table key, or its original label is in the allow-list,
or the label matches neither the substring blocklist nor the explicit
exclusion list.  Only `country` (the ORIGINAL_COUNTRY column) and `iso3`
are consulted. -/
def keepRow (r : Row) : Bool :=
  (lookupKV RENAME_ISO_TO_COUNTRY r.iso3).isSome
  || MUST_KEEP_AGGREGATES.contains r.country
  || (!(EXCLUDE_TERMS.any (fun t => containsCI r.country t))
      && !((SPECIFIC_EXCLUSIONS.map upperStr).contains (upperStr r.country)))

/-- Renaming step of `load_data` (lines 166-167): a row whose ISO3 is a
rename-table key has its display label replaced by the table value. -/
def renameRow (r : Row) : Row :=
  { r with country := (lookupKV RENAME_ISO_TO_COUNTRY r.iso3).getD r.country }

/-- Post-hoc rename of `load_data` (line 180): the literal label
"Americas" becomes "Americas (USA Data Proxy)". -/
def americasFix (r : Row) : Row :=
  if r.country = "Americas" then { r with country := "Americas (USA Data Proxy)" } else r

/-- Full per-row rewriting applied to every kept row. -/
def outRow (r : Row) : Row := americasFix (renameRow r)

/-- The row filter of `load_data` (lines 165-181): the output table is
every kept row with its label rewritten.  In the source the rename is
executed before the keep/exclude decision, but the decision reads only
the untouched ORIGINAL_COUNTRY column and the ISO3 column, so filtering
first and rewriting after is the same table. -/
def load_data_filter (t : List Row) : List Row :=
  (t.filter keepRow).map outRow

/-! ## The value formatter `format_value` (`app.py` lines 200-219) -/

/-- Python `abs` on a rational. -/
def pyAbs (q : ℚ) : ℚ := if q < 0 then -q else q

/-- Python `int(value)`: truncation toward zero. -/
def truncQ (v : ℚ) : ℤ :=
  if v.num < 0 then -((v.num.natAbs / v.den : ℕ) : ℤ) else ((v.num.natAbs / v.den : ℕ) : ℤ)

/-- Split a reversed digit list into groups of three, least significant
first, for thousands grouping. -/
def chunk3 : List Char → List (List Char)
  | a :: b :: c :: d :: rest => [a, b, c] :: chunk3 (d :: rest)
  | l => [l]

/-- Python `f-string` thousands grouping of a natural number, as in
`f"{n:,}"`. -/
def groupNat (n : ℕ) : String :=
  String.mk ((List.intercalate [','] (chunk3 (Nat.repr n).data.reverse)).reverse)

/-- Python `f"{int(value):,}"` applied to a truncated integer: optional
minus sign followed by the grouped magnitude. -/
def groupInt (n : ℤ) : String :=
  (if n < 0 then "-" else "") ++ groupNat n.natAbs

/-- Left-pad a digit string with zeros to `p` characters. -/
def padZeros (s : String) (p : ℕ) : String :=
  String.mk (List.replicate (p - s.length) '0') ++ s

/-- Python fixed-point formatting `f"{value:.{precision}f}"` on an exact
rational: round half to even at `p` decimal places, then print sign,
integer part and `p` fractional digits (no point when `p = 0`). -/
def fixedPoint (v : ℚ) (p : ℕ) : String :=
  let scaled : ℕ := v.num.natAbs * 10 ^ p
  let den : ℕ := v.den
  let f : ℕ := scaled / den
  let r2 : ℕ := 2 * (scaled - f * den)
  let m : ℕ := if r2 < den then f else if den < r2 then f + 1 else if f % 2 = 0 then f else f + 1
  let sgn : String := if v.num < 0 then "-" else ""
  if p = 0 then sgn ++ Nat.repr m
  else sgn ++ Nat.repr (m / 10 ^ p) ++ "." ++ padZeros (Nat.repr (m % 10 ^ p)) p

/-- The missing-data sentinel returned by `format_value` (line 203). -/
def SENTINEL : String := "<span style=\x27color: #FF6347;\x27>**Data Not Available**</span>"

/-- The opening KPI-color span of every non-missing `format_value`
result (line 219, with `KPI_VALUE_COLOR`). -/
def spanOpenKPI : String := "<span style=\x27color: #FFFFF0;\x27>"

/-- The formatter `format_value` of `app.py` (lines 200-219).  A missing
value (Python `None` or `NaN`, modelled as `none`) yields the sentinel.
Otherwise: in currency mode the prefix is a dollar sign and values of
magnitude at least 1000 are thousands-grouped with no decimals, smaller
ones fixed-point; outside currency mode values of (signed) size at least
1000 are grouped unless the unit is "Yrs" or "%", else fixed-point.  The
result is the KPI span around prefix and number, then the unit. -/
def format_value (value : Option ℚ) (units : String) (precision : ℕ) (is_currency : Bool) : String :=
  match value with
  | none => SENTINEL
  | some v =>
    let pfx : String := if is_currency then "$" else ""
    let valueStr : String :=
      if is_currency then
        if 1000 ≤ pyAbs v then groupInt (truncQ v) else fixedPoint v precision
      else
        if 1000 ≤ v ∧ ¬(units = "Yrs" ∨ units = "%") then groupInt (truncQ v) else fixedPoint v precision
    spanOpenKPI ++ pfx ++ valueStr ++ "</span> " ++ units

/-! ## Indicator retrieval with the median-age fallback
(`app.py` lines 244-247 and 316-319) -/

/-- A pandas row as a partial map from column names to cell values: the
outer `Option` is column presence (`Series.get` default), the inner one
distinguishes a numeric cell from `NaN`. -/
def PRow : Type := String → Option (Option ℚ)

/-- Indicator retrieval as written identically in
`create_data_narrative` (lines 244-247) and `draw_country_details`
(lines 316-319): for MEDIAN_AGE_EST the value falls back to the
MEDIAN_AGE_MID column when the column itself is absent
(`row.get("MEDIAN_AGE_EST", row.get("MEDIAN_AGE_MID", nan))`); every
other indicator is `row.get(indicator, nan)`. -/
def getIndicatorValue (row : PRow) (indicator : String) : Option ℚ :=
  if indicator = "MEDIAN_AGE_EST" then
    (row "MEDIAN_AGE_EST").getD ((row "MEDIAN_AGE_MID").getD none)
  else
    (row indicator).getD none

/-! ## Map-click identity resolution (`app.py` lines 479-487) -/

/-- Resolution of a map click carrying a GeoJSON feature id and display
name (lines 480-487): the feature id is normalised by
`str(...).strip().upper()`; when the name is truthy (non-empty) and a
key of the mismatch table, the table value wins; otherwise, when the
normalised id occurs in the ISO3 column of the data table, the id is
accepted; otherwise no key results. -/
def resolveMapClick (mismatch : List (String × String)) (known : List String)
    (featureId : String) (featureName : String) : Option String :=
  let iso := upperStr (stripStr featureId)
  if featureName ≠ "" ∧ (lookupKV mismatch featureName).isSome then
    lookupKV mismatch featureName
  else if known.contains iso then some iso
  else none

/-! ## Supporting lemmas -/

/-- A successful lookup returns a pair of the association list. -/
theorem lookupKV_mem : ∀ (l : List (String × String)) (a b : String),
    lookupKV l a = some b → (a, b) ∈ l := by
  intro l
  induction l with
  | nil => intro a b h; exact absurd h (by simp [lookupKV])
  | cons p tl ih =>
      intro a b h
      obtain ⟨k, v⟩ := p
      simp only [lookupKV] at h
      split at h
      · rename_i hk
        injection h with hv
        subst hk; subst hv
        exact List.mem_cons_self _ _
      · exact List.mem_cons_of_mem _ (ih a b h)

/-- No value of the rename table is the literal label "Americas". -/
theorem rename_lookup_ne_americas (a v : String)
    (h : lookupKV RENAME_ISO_TO_COUNTRY a = some v) : v ≠ "Americas" := by
  have hall : ∀ p ∈ RENAME_ISO_TO_COUNTRY, p.2 ≠ "Americas" := by decide
  exact hall _ (lookupKV_mem _ _ _ h)

/-- Shape of `outRow` when the ISO3 is a rename-table key. -/
theorem outRow_some (c i : String) (d : List (Option ℚ)) (v : String)
    (hl : lookupKV RENAME_ISO_TO_COUNTRY i = some v) :
    outRow ⟨c, i, d⟩ = ⟨v, i, d⟩ := by
  have hv : v ≠ "Americas" := rename_lookup_ne_americas _ _ hl
  unfold outRow renameRow americasFix
  simp [hl, hv]

/-- Shape of `outRow` on an unrenamed row labelled "Americas". -/
theorem outRow_none_americas (c i : String) (d : List (Option ℚ))
    (hl : lookupKV RENAME_ISO_TO_COUNTRY i = none) (hc : c = "Americas") :
    outRow ⟨c, i, d⟩ = ⟨"Americas (USA Data Proxy)", i, d⟩ := by
  unfold outRow renameRow americasFix
  simp [hl, hc]

/-- Shape of `outRow` on an unrenamed row not labelled "Americas". -/
theorem outRow_none_other (c i : String) (d : List (Option ℚ))
    (hl : lookupKV RENAME_ISO_TO_COUNTRY i = none) (hc : c ≠ "Americas") :
    outRow ⟨c, i, d⟩ = ⟨c, i, d⟩ := by
  unfold outRow renameRow americasFix
  simp [hl, hc]

/-- The rewritten form of a kept row is itself kept. -/
theorem keep_out (r : Row) (h : keepRow r = true) : keepRow (outRow r) = true := by
  obtain ⟨c, i, d⟩ := r
  cases hl : lookupKV RENAME_ISO_TO_COUNTRY i with
  | some v =>
      rw [outRow_some c i d v hl]
      unfold keepRow
      simp [hl]
  | none =>
      by_cases hc : c = "Americas"
      · rw [outRow_none_americas c i d hl hc]
        have h1 : EXCLUDE_TERMS.any (fun t => containsCI "Americas (USA Data Proxy)" t) = false := by
          decide
        have h2 : (SPECIFIC_EXCLUSIONS.map upperStr).contains (upperStr "Americas (USA Data Proxy)") = false := by
          decide
        show ((lookupKV RENAME_ISO_TO_COUNTRY i).isSome
          || MUST_KEEP_AGGREGATES.contains "Americas (USA Data Proxy)"
          || (!(EXCLUDE_TERMS.any (fun t => containsCI "Americas (USA Data Proxy)" t))
              && !((SPECIFIC_EXCLUSIONS.map upperStr).contains (upperStr "Americas (USA Data Proxy)")))) = true
        rw [h1, h2]
        simp only [Bool.not_false, Bool.and_self, Bool.or_true]
      · rw [outRow_none_other c i d hl hc]
        exact h

/-- Rewriting a row twice is the same as rewriting it once. -/
theorem out_out (r : Row) : outRow (outRow r) = outRow r := by
  obtain ⟨c, i, d⟩ := r
  cases hl : lookupKV RENAME_ISO_TO_COUNTRY i with
  | some v =>
      rw [outRow_some c i d v hl, outRow_some v i d v hl]
  | none =>
      by_cases hc : c = "Americas"
      · rw [outRow_none_americas c i d hl hc,
            outRow_none_other _ i d hl (by decide)]
      · rw [outRow_none_other c i d hl hc, outRow_none_other c i d hl hc]

/-! ## Claim theorems: the row filter -/

/-- C1: a row whose original label matches the substring blocklist
case-insensitively (or sits in the explicit exclusion list), whose ISO3
is not a rename-table key, and whose original label is not in the
must-keep allow-list, is not kept: `keepRow` is false on it and it never
occurs in the kept sublist of any input table (of which the output table
is the image under the label rewrite). -/
theorem c1_blocklist_row_excluded (r : Row)
    (hmatch : EXCLUDE_TERMS.any (fun t => containsCI r.country t) = true
      ∨ (SPECIFIC_EXCLUSIONS.map upperStr).contains (upperStr r.country) = true)
    (hiso : lookupKV RENAME_ISO_TO_COUNTRY r.iso3 = none)
    (hname : MUST_KEEP_AGGREGATES.contains r.country = false) :
    keepRow r = false ∧ ∀ t : List Row, r ∉ t.filter keepRow := by
  have hk : keepRow r = false := by
    unfold keepRow
    rw [hiso, hname]
    rcases hmatch with h | h <;>
      simp only [h, Option.isSome_none, Bool.false_or, Bool.not_true,
        Bool.false_and, Bool.and_false]
  refine ⟨hk, ?_⟩
  intro t hmem
  have hp := List.of_mem_filter hmem
  rw [hk] at hp
  exact Bool.false_ne_true hp

/-- The "Sub-Saharan Africa (excluding high income)" example row of the
specification, with an ISO3 outside the rename table. -/
def ssaRow : Row := ⟨"Sub-Saharan Africa (excluding high income)", "TSS", []⟩

/-- Witness for C1: the spec example label matches the blocklist, its
ISO3 is not renamed, it is not in the allow-list, and the row is
excluded. -/
theorem c1_blocklist_row_excluded_witness :
    (EXCLUDE_TERMS.any (fun t => containsCI ssaRow.country t) = true
      ∧ lookupKV RENAME_ISO_TO_COUNTRY ssaRow.iso3 = none
      ∧ MUST_KEEP_AGGREGATES.contains ssaRow.country = false)
    ∧ keepRow ssaRow = false ∧ ssaRow ∉ [ssaRow].filter keepRow := by
  have h := c1_blocklist_row_excluded ssaRow (Or.inl (by decide)) (by decide) (by decide)
  exact ⟨⟨by decide, by decide, by decide⟩, h.1, h.2 [ssaRow]⟩

/-- C2: every kept row appears in the filter output in rewritten form;
when its ISO3 is a rename-table key the output label is the table value
(whatever the original label was); a post-rename literal label
"Americas" is rewritten to "Americas (USA Data Proxy)"; and consequently
no output row carries the literal label "Americas". -/
theorem c2_rename_table_wins (t : List Row) (r : Row) (hr : r ∈ t) (hk : keepRow r = true) :
    outRow r ∈ load_data_filter t
    ∧ (∀ v, lookupKV RENAME_ISO_TO_COUNTRY r.iso3 = some v → (outRow r).country = v)
    ∧ ((renameRow r).country = "Americas" → (outRow r).country = "Americas (USA Data Proxy)")
    ∧ (outRow r).country ≠ "Americas" := by
  obtain ⟨c, i, d⟩ := r
  refine ⟨List.mem_map_of_mem _ (List.mem_filter.mpr ⟨hr, hk⟩), ?_, ?_, ?_⟩
  · intro v hv
    rw [outRow_some c i d v hv]
  · intro hA
    unfold outRow americasFix
    rw [if_pos hA]
  · cases hl : lookupKV RENAME_ISO_TO_COUNTRY i with
    | some v =>
        rw [outRow_some c i d v hl]
        exact rename_lookup_ne_americas _ _ hl
    | none =>
        by_cases hc : c = "Americas"
        · rw [outRow_none_americas c i d hl hc]
          show ("Americas (USA Data Proxy)" : String) ≠ "Americas"
          decide
        · rw [outRow_none_other c i d hl hc]
          exact hc

/-- A Greenland data row under its GeoJSON-style original label; its
ISO3 GRL is a rename-table key. -/
def grlRow : Row := ⟨"Kalaallit Nunaat", "GRL", []⟩

/-- Witness for C2: the kept GRL row is displayed as "Greenland"
regardless of its original label. -/
theorem c2_rename_table_wins_witness :
    (grlRow ∈ [grlRow] ∧ keepRow grlRow = true
      ∧ lookupKV RENAME_ISO_TO_COUNTRY grlRow.iso3 = some "Greenland")
    ∧ outRow grlRow ∈ load_data_filter [grlRow]
    ∧ (outRow grlRow).country = "Greenland" := by
  have h := c2_rename_table_wins [grlRow] grlRow (by decide) (by decide)
  exact ⟨⟨by decide, by decide, by decide⟩, h.1, h.2.1 "Greenland" (by decide)⟩

/-- C3: the row filter is idempotent — applying the rename, the
keep/exclude decision and the post-hoc "Americas" rewrite to its own
output table returns that table unchanged: no kept row is dropped on the
second pass and no label changes a second time. -/
theorem c3_filter_idempotent (t : List Row) :
    load_data_filter (load_data_filter t) = load_data_filter t := by
  have hall : ∀ x ∈ load_data_filter t, keepRow x = true := by
    intro x hx
    obtain ⟨r, hr, rfl⟩ := List.mem_map.mp hx
    exact keep_out r (List.of_mem_filter hr)
  show ((load_data_filter t).filter keepRow).map outRow = load_data_filter t
  rw [List.filter_eq_self.mpr hall]
  show ((t.filter keepRow).map outRow).map outRow = _
  rw [List.map_map]
  have hoo : outRow ∘ outRow = outRow := funext out_out
  rw [hoo]
  rfl

/-- C8: the keep/exclude decision reads only the original label and the
ISO3 code: two tables that agree pointwise on those two columns produce
the same keep mask (hence the same kept row positions), whatever their
indicator values are. -/
theorem c8_filter_label_driven (t₁ t₂ : List Row)
    (h : List.Forall₂ (fun a b => a.country = b.country ∧ a.iso3 = b.iso3) t₁ t₂) :
    t₁.map keepRow = t₂.map keepRow := by
  induction h with
  | nil => rfl
  | cons hab htl ih =>
      rename_i a b l₁ l₂
      simp only [List.map_cons, ih]
      have hk : keepRow a = keepRow b := by
        unfold keepRow
        rw [hab.1, hab.2]
      rw [hk]

/-- A France row with a present first indicator. -/
def rowA : Row := ⟨"France", "FRA", [some 1, none]⟩

/-- The same France row with different and partly missing indicators. -/
def rowB : Row := ⟨"France", "FRA", [none, some 5]⟩

/-- Witness for C8: two tables equal on the label and ISO3 columns but
with different (partly missing) indicator values get the same keep
mask. -/
theorem c8_filter_label_driven_witness :
    List.Forall₂ (fun a b => a.country = b.country ∧ a.iso3 = b.iso3) [rowA] [rowB]
    ∧ [rowA].map keepRow = [rowB].map keepRow := by
  have hf : List.Forall₂ (fun a b => a.country = b.country ∧ a.iso3 = b.iso3) [rowA] [rowB] :=
    List.Forall₂.cons ⟨rfl, rfl⟩ List.Forall₂.nil
  exact ⟨hf, c8_filter_label_driven _ _ hf⟩

/-! ## Claim theorems: the value formatter -/

/-- Appending the empty string is the identity, used to erase the empty
non-currency prefix. -/
theorem str_append_empty (s : String) : s ++ "" = s := by
  cases s with
  | mk d =>
      show String.mk (d ++ []) = String.mk d
      rw [List.append_nil]

/-- C4: for every unit string, precision and currency flag,
`format_value` on a missing value (Python `None` or `NaN`, both modelled
as `none`) returns the fixed missing-data sentinel string; the function
is total, so no error is raised. -/
theorem c4_missing_value_sentinel (units : String) (precision : ℕ) (is_currency : Bool) :
    format_value none units precision is_currency = SENTINEL := rfl

/-- Counterexample to C5 as stated: `format_value(1500, "$", 1, True)`
does not return the bare string "$1,500" — the unit string is appended
after the number (and the number is wrapped in the KPI color span), so
something does follow the number. -/
theorem c5_counterexample : format_value (some 1500) "$" 1 true ≠ "$1,500" := by decide

/-- C5 (amended): in currency mode a value of magnitude at least 1000 is
rendered as the currency prefix followed by the truncated integer with
thousands separators and no decimals; the full return value wraps that
number in the KPI color span and appends the unit string after the
span. -/
theorem c5_currency_grouped (v : ℚ) (p : ℕ) (h : 1000 ≤ pyAbs v) :
    format_value (some v) "$" p true
      = spanOpenKPI ++ "$" ++ groupInt (truncQ v) ++ "</span> " ++ "$" := by
  unfold format_value
  simp [h]

/-- Witness for C5 (amended) at the spec input 1500: the rendered number
is "$1,500", inside the span and followed by the unit. -/
theorem c5_currency_grouped_witness :
    (1000 ≤ pyAbs (1500 : ℚ))
    ∧ format_value (some 1500) "$" 1 true
      = "<span style=\x27color: #FFFFF0;\x27>$1,500</span> $" := by
  exact ⟨by decide, (c5_currency_grouped 1500 1 (by decide)).trans (by decide)⟩

/-- C6: outside currency mode, a unit of "Yrs" or "%" always takes the
fixed-point path with the given precision, whatever the magnitude of the
value. -/
theorem c6_yrs_percent_fixed_point (v : ℚ) (p : ℕ) (u : String)
    (h : u = "Yrs" ∨ u = "%") :
    format_value (some v) u p false
      = spanOpenKPI ++ fixedPoint v p ++ "</span> " ++ u := by
  have hcond : ¬(1000 ≤ v ∧ ¬u = "Yrs" ∧ ¬u = "%") :=
    fun hx => h.elim (fun hy => hx.2.1 hy) (fun hy => hx.2.2 hy)
  unfold format_value
  simp [hcond, str_append_empty]

/-- Witness for C6 at the spec input 72.345 with unit "Yrs" and
precision 1: the rendered text is "72.3 Yrs" (the number inside the KPI
span, the unit after it). -/
theorem c6_yrs_percent_fixed_point_witness :
    ((("Yrs" : String) = "Yrs" ∨ ("Yrs" : String) = "%"))
    ∧ format_value (some (mkRat 72345 1000)) "Yrs" 1 false
      = "<span style=\x27color: #FFFFF0;\x27>72.3</span> Yrs" := by
  exact ⟨Or.inl rfl,
    (c6_yrs_percent_fixed_point (mkRat 72345 1000) 1 "Yrs" (Or.inl rfl)).trans (by decide)⟩

/-- C10: the grouping threshold is asymmetric — outside currency mode
the signed test `value >= 1000` sends every negative value, however
large in magnitude, to the fixed-point path; in currency mode the test
uses the absolute value, so -1500 is grouped with no decimals, rendering
as "$-1,500". -/
theorem c10_threshold_asymmetry :
    (∀ (v : ℚ) (u : String) (p : ℕ), v < 0 →
        format_value (some v) u p false
          = spanOpenKPI ++ fixedPoint v p ++ "</span> " ++ u)
    ∧ format_value (some (-1500)) "$" 1 true
      = spanOpenKPI ++ "$" ++ groupInt (truncQ (-1500)) ++ "</span> " ++ "$"
    ∧ groupInt (truncQ (-1500)) = "-1,500" := by
  refine ⟨?_, by decide, by decide⟩
  intro v u p h
  have hng : ¬(1000 ≤ v) := fun hc => absurd (hc.trans_lt h) (by norm_num)
  have hcond : ¬(1000 ≤ v ∧ ¬u = "Yrs" ∧ ¬u = "%") := fun hx => hng hx.1
  unfold format_value
  simp [hcond, str_append_empty]

/-- Witness for C10: the negative value -2000 with a non-percentage,
non-years unit is still rendered fixed-point ("-2000.0 M"), not
grouped. -/
theorem c10_threshold_asymmetry_witness :
    ((-2000 : ℚ) < 0)
    ∧ format_value (some (-2000)) "M" 1 false
      = "<span style=\x27color: #FFFFF0;\x27>-2000.0</span> M" := by
  exact ⟨by decide, (c10_threshold_asymmetry.1 (-2000) "M" 1 (by decide)).trans (by decide)⟩

/-! ## Claim theorems: map-click identity resolution -/

/-- Counterexample to C7 as stated: a feature whose display name is the
empty string fails the Python truthiness test `if name and name in
mismatch_map` even when that name is a key of the mismatch table, so the
raw feature id is accepted from the known ISO set instead of the table
value. -/
theorem c7_counterexample :
    lookupKV [("", "XXX")] "" = some "XXX"
    ∧ resolveMapClick [("", "XXX")] ["USA"] "USA" "" = some "USA"
    ∧ resolveMapClick [("", "XXX")] ["USA"] "USA" "" ≠ some "XXX" := by
  exact ⟨by decide, by decide, by decide⟩

/-- C7 (amended): for a click carrying a non-empty display name that is
a key of the mismatch table, resolution returns the table value — never
the raw feature id — even when the id is in the known ISO set; when the
name is not a key (in particular when the feature id path is taken), the
id is accepted exactly when its normalised form is in the known ISO
set. -/
theorem c7_mismatch_table_wins :
    (∀ (mm : List (String × String)) (known : List String) (fid name v : String),
        name ≠ "" → lookupKV mm name = some v →
        resolveMapClick mm known fid name = some v)
    ∧ (∀ (mm : List (String × String)) (known : List String) (fid name : String),
        lookupKV mm name = none →
        resolveMapClick mm known fid name =
          (if known.contains (upperStr (stripStr fid)) then some (upperStr (stripStr fid))
           else none)) := by
  constructor
  · intro mm known fid name v h1 h2
    unfold resolveMapClick
    rw [h2]
    simp [h1]
  · intro mm known fid name h
    unfold resolveMapClick
    rw [h]
    simp

/-- Witness for C7 (amended): the name "West Bank" is a mismatch-table
key mapping to "PSE", and it wins although the raw feature id "USA" is
itself in the known ISO set. -/
theorem c7_mismatch_table_wins_witness :
    (("West Bank" : String) ≠ "" ∧ lookupKV [("West Bank", "PSE")] "West Bank" = some "PSE")
    ∧ resolveMapClick [("West Bank", "PSE")] ["PSE", "USA"] "USA" "West Bank" = some "PSE" := by
  exact ⟨⟨by decide, by decide⟩,
    c7_mismatch_table_wins.1 [("West Bank", "PSE")] ["PSE", "USA"] "USA" "West Bank" "PSE"
      (by decide) (by decide)⟩

/-! ## Claim theorems: the median-age fallback -/

/-- A row whose MEDIAN_AGE_EST column is present but holds NaN, while
MEDIAN_AGE_MID is present with the value 30. -/
def rowNaNEst : PRow := fun k =>
  if k = "MEDIAN_AGE_EST" then some none
  else if k = "MEDIAN_AGE_MID" then some (some 30) else none

/-- Counterexample to C9 as stated: the sentinel is shown although both
median-age fields are present — MEDIAN_AGE_EST present-but-NaN is passed
straight to the formatter and MEDIAN_AGE_MID is never consulted. -/
theorem c9_counterexample :
    rowNaNEst "MEDIAN_AGE_EST" ≠ none
    ∧ rowNaNEst "MEDIAN_AGE_MID" ≠ none
    ∧ format_value (getIndicatorValue rowNaNEst "MEDIAN_AGE_EST") "Yrs" 1 false = SENTINEL := by
  exact ⟨by decide, by decide, by decide⟩

/-- C9 (amended): when the MEDIAN_AGE_EST column is absent the
MEDIAN_AGE_MID value is used in its place; the resolved median-age value
is missing — and hence rendered as the sentinel, which is what
`format_value` returns on a missing value — exactly when MEDIAN_AGE_EST
is present with a NaN cell, or absent while MEDIAN_AGE_MID is absent or
NaN; no indicator other than MEDIAN_AGE_EST has a fallback. -/
theorem c9_median_age_fallback (row : PRow) :
    (row "MEDIAN_AGE_EST" = none →
       getIndicatorValue row "MEDIAN_AGE_EST" = (row "MEDIAN_AGE_MID").getD none)
    ∧ (getIndicatorValue row "MEDIAN_AGE_EST" = none ↔
         row "MEDIAN_AGE_EST" = some none
         ∨ (row "MEDIAN_AGE_EST" = none
            ∧ (row "MEDIAN_AGE_MID" = none ∨ row "MEDIAN_AGE_MID" = some none)))
    ∧ (∀ k, k ≠ "MEDIAN_AGE_EST" → getIndicatorValue row k = (row k).getD none)
    ∧ (∀ u p c, format_value none u p c = SENTINEL) := by
  refine ⟨?_, ?_, ?_, fun u p c => rfl⟩
  · intro h
    unfold getIndicatorValue
    simp [h]
  · unfold getIndicatorValue
    simp only [if_pos rfl]
    cases hE : row "MEDIAN_AGE_EST" with
    | none =>
        cases hM : row "MEDIAN_AGE_MID" with
        | none => simp
        | some m => cases m <;> simp
    | some e => cases e <;> simp
  · intro k hk
    unfold getIndicatorValue
    rw [if_neg hk]

/-- A row with no MEDIAN_AGE_EST column at all and MEDIAN_AGE_MID
holding 30. -/
def rowNoEst : PRow := fun k =>
  if k = "MEDIAN_AGE_MID" then some (some 30) else none

/-- Witness for C9 (amended): with the MEDIAN_AGE_EST column absent, the
MEDIAN_AGE_MID value 30 is used. -/
theorem c9_median_age_fallback_witness :
    rowNoEst "MEDIAN_AGE_EST" = none
    ∧ getIndicatorValue rowNoEst "MEDIAN_AGE_EST" = some 30 := by
  exact ⟨by decide, ((c9_median_age_fallback rowNoEst).1 (by decide)).trans (by decide)⟩
